import Mathlib

/-!
Shallow embedding of the NekoMaid UI engine (repository `KrLiam/neko-maid`).

The source is a Rust crate: a lexer (`src/parse/token.rs`), an AST
(`src/parse/nodes.rs`), and a resolution engine (`src/vm/*.rs`) that turns a
module AST into a `NekoContext` (resolved variables + cascade styles) and a
forest of `NekoElement`s.

Modelling conventions:
- Rust `HashMap<K, V>` is modelled as an association list `List (K × V)` with
  overwrite-in-place-or-append insertion; `HashSet<T>` as a duplicate-free
  `List T` with insert-if-absent.  Only contents, never iteration order, are
  observable through equalities the source performs (`PartialEq` on hash sets
  compares contents), so set/hierarchy comparison functions below compare
  contents, mirroring the derived Rust `PartialEq`.
- Interned identifiers (`NekoWidget(u64)` etc. from `src/vm/allocator.rs`) are
  in a process-wide bijection with their names, one table per kind, and the VM
  only ever compares and hashes them.  The VM embedding therefore uses the
  interned *name* (a `String`) as the identifier.  The allocator itself, with
  its numeric ids and shared incrementor, is modelled separately
  (`NekoContextAllocator` below) for the interning claims.
- Rust `f64` literal payloads are carried as `Rat`: the engine performs no
  arithmetic on them, it only stores and compares them.
- Functions that mutate through `&mut` (error vectors, the context) become
  state-passing functions returning the updated value.
-/

namespace NekoMaid

/-- Association-list lookup, modelling `HashMap::get` (first binding wins;
insertion keeps keys unique so there is at most one). -/
def listGet {α β : Type} [BEq α] : List (α × β) → α → Option β
  | [], _ => none
  | (k, v) :: rest, key => if k == key then some v else listGet rest key

/-- Association-list insert, modelling `HashMap::insert`: overwrite the
existing binding in place, else append a new one. -/
def listInsert {α β : Type} [BEq α] : List (α × β) → α → β → List (α × β)
  | [], key, value => [(key, value)]
  | (k, v) :: rest, key, value =>
    if k == key then (k, value) :: rest else (k, v) :: listInsert rest key value

/-- Set insert, modelling `HashSet::insert`: add the element unless present. -/
def setInsert {α : Type} [BEq α] (s : List α) (x : α) : List α :=
  if s.contains x then s else s ++ [x]

/-- Content equality of two set-modelling lists, modelling `PartialEq` on
`HashSet` (mutual containment). -/
def setEqList {α : Type} [BEq α] (a b : List α) : Bool :=
  a.all (b.contains ·) && b.all (a.contains ·)

/-- Position of a token in the source text (`src/parse/token.rs`,
`TokenPosition`). -/
structure TokenPosition where
  line : Nat
  column : Nat
  length : Nat
deriving DecidableEq, Repr

/-- Default `TokenPosition` (`impl Default for TokenPosition`). -/
def TokenPosition.default : TokenPosition := ⟨1, 1, 0⟩

/-- Model of `bevy::color::Color` as an sRGBA quadruple; the engine only
stores and compares colors. -/
structure NekoColor where
  red : Rat
  green : Rat
  blue : Rat
  alpha : Rat
deriving DecidableEq, Repr

/-- Model of `Color::srgb` (alpha = 1). -/
def NekoColor.srgb (r g b : Rat) : NekoColor := ⟨r, g, b, 1⟩

/-- Model of `Color::srgb_u8` (components scaled by 255). -/
def NekoColor.srgb_u8 (r g b : Nat) : NekoColor :=
  ⟨(r : Rat) / 255, (g : Rat) / 255, (b : Rat) / 255, 1⟩

/-- Model of `Color::srgba_u8`. -/
def NekoColor.srgba_u8 (r g b a : Nat) : NekoColor :=
  ⟨(r : Rat) / 255, (g : Rat) / 255, (b : Rat) / 255, (a : Rat) / 255⟩

/-- Model of `Color::NONE` (fully transparent). -/
def NekoColor.none : NekoColor := ⟨0, 0, 0, 0⟩

/-- A property value in the AST (`src/parse/nodes.rs`, `PropertyNodeValue`). -/
inductive PropertyNodeValue where
  | String (s : String)
  | Number (n : Rat)
  | Pixels (n : Rat)
  | Percent (n : Rat)
  | Bool (b : Bool)
  | Color (c : NekoColor)
  | Variable (name : String) (position : TokenPosition)
deriving DecidableEq, Repr

/-- A property declaration in the AST (`src/parse/nodes.rs`, `PropertyNode`). -/
structure PropertyNode where
  name : String
  value : PropertyNodeValue
  position : TokenPosition
deriving DecidableEq, Repr

/-- An import statement in the AST (`src/parse/nodes.rs`, `ImportNode`). -/
structure ImportNode where
  path : String
  position : TokenPosition
deriving DecidableEq, Repr

/-- A part of a style selector (`src/parse/nodes.rs`, `SelectorPart`). -/
inductive SelectorPart where
  | WithClass (c : String)
  | WithoutClass (c : String)
deriving DecidableEq, Repr

/-- A selector in a style declaration (`src/parse/nodes.rs`, `SelectorNode`). -/
structure SelectorNode where
  widget : String
  parts : List SelectorPart
  position : TokenPosition
deriving DecidableEq, Repr

/-- A style declaration in the AST (`src/parse/nodes.rs`, `StyleNode`). -/
inductive StyleNode where
  | mk (selector : SelectorNode) (properties : List PropertyNode)
      (children : List StyleNode)

/-- Selector of a `StyleNode`. -/
def StyleNode.selector : StyleNode → SelectorNode
  | .mk s _ _ => s

/-- Properties of a `StyleNode`. -/
def StyleNode.properties : StyleNode → List PropertyNode
  | .mk _ p _ => p

/-- Children of a `StyleNode`. -/
def StyleNode.children : StyleNode → List StyleNode
  | .mk _ _ c => c

/-- A layout declaration in the AST (`src/parse/nodes.rs`, `LayoutNode`). -/
inductive LayoutNode where
  | mk (widget : String) (classes : List String)
      (properties : List PropertyNode) (children : List LayoutNode)
      (position : TokenPosition)

/-- Widget name of a `LayoutNode`. -/
def LayoutNode.widget : LayoutNode → String
  | .mk w _ _ _ _ => w

/-- Declared static classes of a `LayoutNode`. -/
def LayoutNode.classes : LayoutNode → List String
  | .mk _ c _ _ _ => c

/-- Properties of a `LayoutNode`. -/
def LayoutNode.properties : LayoutNode → List PropertyNode
  | .mk _ _ p _ _ => p

/-- Children of a `LayoutNode`. -/
def LayoutNode.children : LayoutNode → List LayoutNode
  | .mk _ _ _ c _ => c

/-- Source position of a `LayoutNode`. -/
def LayoutNode.position : LayoutNode → TokenPosition
  | .mk _ _ _ _ p => p

/-- A whole module AST (`src/parse/nodes.rs`, `ModuleNode`). -/
structure ModuleNode where
  imports : List ImportNode
  vars : List PropertyNode
  styles : List StyleNode
  layouts : List LayoutNode

/-- Interned widget identifier; the embedding uses the interned name (see the
header comment). -/
abbrev NekoWidget := String

/-- Interned property identifier (see the header comment). -/
abbrev NekoProperty := String

/-- Interned class identifier (see the header comment). -/
abbrev NekoClass := String

/-- Interned variable identifier (see the header comment). -/
abbrev NekoVariable := String

/-- A resolved property value (`src/vm/properties.rs`, `PropertyValue`). -/
inductive PropertyValue where
  | String (s : String)
  | Number (n : Rat)
  | Bool (b : Bool)
  | Color (c : NekoColor)
  | Percent (n : Rat)
  | Pixels (n : Rat)
deriving DecidableEq, Repr

/-- A selector used for matching against a class path (`src/vm/style.rs`,
`Selector`). -/
structure Selector where
  widget : NekoWidget
  with_classes : List NekoClass
  without_classes : List NekoClass
deriving DecidableEq, Repr

/-- Model of `Selector::new`: no class constraints. -/
def Selector.new (widget : NekoWidget) : Selector := ⟨widget, [], []⟩

/-- Model of `Selector::build`. -/
def Selector.build (widget : NekoWidget) (with_classes without_classes : List NekoClass) :
    Selector :=
  ⟨widget, with_classes.foldl setInsert [], without_classes.foldl setInsert []⟩

/-- Model of `Selector::add_with_class`. -/
def Selector.add_with_class (s : Selector) (c : NekoClass) : Selector :=
  { s with with_classes := setInsert s.with_classes c }

/-- Model of `Selector::add_without_class`. -/
def Selector.add_without_class (s : Selector) (c : NekoClass) : Selector :=
  { s with without_classes := setInsert s.without_classes c }

/-- Rust `PartialEq` on `Selector` (derived): widget equality and content
equality of the two class hash sets. -/
def Selector.eqv (a b : Selector) : Bool :=
  a.widget == b.widget && setEqList a.with_classes b.with_classes &&
    setEqList a.without_classes b.without_classes

/-- A hierarchy of selectors (`src/vm/style.rs`, `SelectorHierarchy`). -/
structure SelectorHierarchy where
  selectors : List Selector
deriving DecidableEq, Repr

/-- Model of `SelectorHierarchy::default`: the empty hierarchy. -/
def SelectorHierarchy.empty : SelectorHierarchy := ⟨[]⟩

/-- Model of `SelectorHierarchy::from` (a single widget-only selector). -/
def SelectorHierarchy.fromWidget (widget : NekoWidget) : SelectorHierarchy :=
  ⟨[Selector.new widget]⟩

/-- Model of `SelectorHierarchy::extend`. -/
def SelectorHierarchy.extend (h : SelectorHierarchy) (s : Selector) : SelectorHierarchy :=
  ⟨h.selectors ++ [s]⟩

/-- Model of `SelectorHierarchy::depth`. -/
def SelectorHierarchy.depth (h : SelectorHierarchy) : Nat := h.selectors.length

/-- Model of `SelectorHierarchy::get_selector` (in-range indexing in the
source; out of range would panic there and yields a junk selector here). -/
def SelectorHierarchy.get_selector (h : SelectorHierarchy) (depth : Nat) : Selector :=
  h.selectors.getD depth (Selector.new "")

/-- Rust `PartialEq` on `SelectorHierarchy` (derived): elementwise `Selector`
equality. -/
def SelectorHierarchy.eqv (a b : SelectorHierarchy) : Bool :=
  a.selectors.length == b.selectors.length &&
    (a.selectors.zip b.selectors).all fun p => Selector.eqv p.1 p.2

/-- Classes attached to a single widget (`src/vm/classpath.rs`,
`WidgetClasses`). -/
structure WidgetClasses where
  widget : NekoWidget
  classes : List NekoClass
deriving DecidableEq, Repr

/-- Model of `WidgetClasses::new`. -/
def WidgetClasses.new (widget : NekoWidget) : WidgetClasses := ⟨widget, []⟩

/-- Model of `WidgetClasses::add_class`. -/
def WidgetClasses.add_class (wc : WidgetClasses) (c : NekoClass) : WidgetClasses :=
  { wc with classes := setInsert wc.classes c }

/-- Model of `WidgetClasses::remove_class`. -/
def WidgetClasses.remove_class (wc : WidgetClasses) (c : NekoClass) : WidgetClasses :=
  { wc with classes := wc.classes.filter (· ≠ c) }

/-- Model of `WidgetClasses::matches`: widget equality, every `with` class
present, every `without` class absent (the source iterates both hash sets;
conjunction is order-independent). -/
def WidgetClasses.matches (wc : WidgetClasses) (selector : Selector) : Bool :=
  if wc.widget != selector.widget then false
  else
    selector.with_classes.all (wc.classes.contains ·) &&
      selector.without_classes.all (fun c => ! wc.classes.contains c)

/-- A widget's ancestor class path (`src/vm/classpath.rs`, `ClassPath`). -/
structure ClassPath where
  hierarchy : List WidgetClasses
deriving DecidableEq, Repr

/-- Model of `ClassPath::new` (a single entry). -/
def ClassPath.new (widget : WidgetClasses) : ClassPath := ⟨[widget]⟩

/-- Model of `ClassPath::chain`. -/
def ClassPath.chain (p other : ClassPath) : ClassPath :=
  ⟨p.hierarchy ++ other.hierarchy⟩

/-- Model of `ClassPath::extend`. -/
def ClassPath.extend (p : ClassPath) (widget : WidgetClasses) : ClassPath :=
  ⟨p.hierarchy ++ [widget]⟩

/-- Model of `ClassPath::depth`. -/
def ClassPath.depth (p : ClassPath) : Nat := p.hierarchy.length

/-- Model of `ClassPath::get_classes` (in-range indexing in the source). -/
def ClassPath.get_classes (p : ClassPath) (depth : Nat) : WidgetClasses :=
  p.hierarchy.getD depth (WidgetClasses.new "")

/-- Model of `ClassPath::matches`: the selector hierarchy is compared against
the same-length suffix of the class path, with full class checking. -/
def ClassPath.matches (p : ClassPath) (selector_hierarchy : SelectorHierarchy) : Bool :=
  if p.depth < selector_hierarchy.depth then false
  else
    let offset := p.depth - selector_hierarchy.depth
    (List.range selector_hierarchy.depth).all fun depth =>
      (p.get_classes (depth + offset)).matches (selector_hierarchy.get_selector depth)

/-- Model of `ClassPath::partial_matches`: only widget types of the
same-length suffix are compared; classes are ignored. -/
def ClassPath.partial_matches (p : ClassPath) (selector_hierarchy : SelectorHierarchy) : Bool :=
  if p.depth < selector_hierarchy.depth then false
  else
    let offset := p.depth - selector_hierarchy.depth
    (List.range selector_hierarchy.depth).all fun depth =>
      (selector_hierarchy.get_selector depth).widget == (p.get_classes (depth + offset)).widget

/-- Model of `ClassPath::last`; the source unwraps (panicking on an empty
hierarchy), so the model returns an `Option`. -/
def ClassPath.last (p : ClassPath) : Option WidgetClasses := p.hierarchy.getLast?

/-- A resolved style (`src/vm/style.rs`, `NekoStyle`). -/
structure NekoStyle where
  selector : SelectorHierarchy
  properties : List (NekoProperty × PropertyValue)
deriving DecidableEq, Repr

/-- Model of `NekoStyle::new`. -/
def NekoStyle.new (selector : SelectorHierarchy) : NekoStyle := ⟨selector, []⟩

/-- Model of `NekoStyle::set_property` (`HashMap::insert`). -/
def NekoStyle.set_property (s : NekoStyle) (property : NekoProperty) (value : PropertyValue) :
    NekoStyle :=
  { s with properties := listInsert s.properties property value }

/-- Model of `NekoStyle::get_property`. -/
def NekoStyle.get_property (s : NekoStyle) (property : NekoProperty) : Option PropertyValue :=
  listGet s.properties property

/-- A module context (`src/vm/context.rs`, `NekoContext`). -/
structure NekoContext where
  vars : List (NekoVariable × PropertyValue)
  styles : List NekoStyle
deriving DecidableEq, Repr

/-- Model of `NekoContext::default`. -/
def NekoContext.empty : NekoContext := ⟨[], []⟩

/-- Model of `NekoContext::set_variable` (overwrite any existing value). -/
def NekoContext.set_variable (ctx : NekoContext) (name : NekoVariable)
    (value : PropertyValue) : NekoContext :=
  { ctx with vars := listInsert ctx.vars name value }

/-- Model of `NekoContext::get_variable`. -/
def NekoContext.get_variable (ctx : NekoContext) (name : NekoVariable) :
    Option PropertyValue :=
  listGet ctx.vars name

/-- Merge of one incoming style into an existing style: the incoming
properties overwrite same-named ones (the `for (property, value) in
style.into_properties()` loop of `NekoContext::add_style`). -/
def NekoStyle.merge_into (existing incoming : NekoStyle) : NekoStyle :=
  incoming.properties.foldl (fun s p => s.set_property p.1 p.2) existing

/-- Model of the loop body of `NekoContext::add_style`: merge into the first
existing style whose selector hierarchy equals the incoming one, else push the
incoming style at the end. -/
def add_style_list : List NekoStyle → NekoStyle → List NekoStyle
  | [], style => [style]
  | existing :: rest, style =>
    if SelectorHierarchy.eqv existing.selector style.selector then
      NekoStyle.merge_into existing style :: rest
    else
      existing :: add_style_list rest style

/-- Model of `NekoContext::add_style`. -/
def NekoContext.add_style (ctx : NekoContext) (style : NekoStyle) : NekoContext :=
  { ctx with styles := add_style_list ctx.styles style }

/-- Model of `NekoContext::append`: merge the other context's variables
(overwrite on conflict) and styles (via `add_style`) into this one. -/
def NekoContext.append (ctx : NekoContext) (other : NekoContext) : NekoContext :=
  let ctx := other.vars.foldl (fun c p => c.set_variable p.1 p.2) ctx
  other.styles.foldl NekoContext.add_style ctx

/-- A property definition of a widget (`src/vm/properties.rs`,
`PropertyDefinition`). -/
structure PropertyDefinition where
  property : NekoProperty
  default_value : PropertyValue
deriving DecidableEq, Repr

/-- A widget definition (`src/vm/properties.rs`, `WidgetDefinition`). -/
structure WidgetDefinition where
  widget : NekoWidget
  properties : List (NekoProperty × PropertyDefinition)
deriving DecidableEq, Repr

/-- Model of `WidgetDefinition::get_property`. -/
def WidgetDefinition.get_property (d : WidgetDefinition) (property : NekoProperty) :
    Option PropertyDefinition :=
  listGet d.properties property

/-- Model of `WidgetDefinition::default_style`: one style over the widget-only
selector holding every property's registered default. -/
def WidgetDefinition.default_style (d : WidgetDefinition) : NekoStyle :=
  d.properties.foldl (fun s p => s.set_property p.1 p.2.default_value)
    (NekoStyle.new (SelectorHierarchy.fromWidget d.widget))

/-- A resolved element (`src/vm/element.rs`, `NekoElement`). -/
inductive NekoElement where
  | mk (widget : NekoWidget) (classpath : ClassPath) (styles : List NekoStyle)
      (children : List NekoElement)

/-- Widget of an element. -/
def NekoElement.widget : NekoElement → NekoWidget
  | .mk w _ _ _ => w

/-- Class path of an element. -/
def NekoElement.classpath : NekoElement → ClassPath
  | .mk _ cp _ _ => cp

/-- Styles of an element, highest precedence first. -/
def NekoElement.styles : NekoElement → List NekoStyle
  | .mk _ _ s _ => s

/-- Children of an element. -/
def NekoElement.children : NekoElement → List NekoElement
  | .mk _ _ _ c => c

/-- Model of `NekoElement::new`: widget taken from the last class-path entry
(the source unwraps; an empty path contributes the junk widget `""`). -/
def NekoElement.new (classpath : ClassPath) : NekoElement :=
  .mk ((classpath.last.getD (WidgetClasses.new "")).widget) classpath [] []

/-- Model of `NekoElement::add_style`: insert at index 0, so the new style
has the highest precedence. -/
def NekoElement.add_style (e : NekoElement) (style : NekoStyle) : NekoElement :=
  match e with
  | .mk w cp styles children => .mk w cp (style :: styles) children

/-- Model of `NekoElement::add_child`: push at the end of the child list. -/
def NekoElement.add_child (e : NekoElement) (child : NekoElement) : NekoElement :=
  match e with
  | .mk w cp styles children => .mk w cp styles (children ++ [child])

/-- Errors of module resolution (`src/vm/mod.rs`, `NekoMaidVMError`). -/
inductive NekoMaidVMError where
  | ModuleNotFound (path : String) (position : TokenPosition)
  | VariableNotFound (name : String) (position : TokenPosition)
  | UnknownWidget (name : String) (position : TokenPosition)
  | InvalidProperty (property : String) (widget : String) (position : TokenPosition)
deriving DecidableEq, Repr

/-- The NekoMaid virtual machine (`src/vm/mod.rs`, `NekoMaidVM`). -/
structure NekoMaidVM where
  widgets : List (NekoWidget × WidgetDefinition)
  contexts : List (String × NekoContext)
deriving DecidableEq, Repr

/-- Model of `NekoMaidVM::default`. -/
def NekoMaidVM.empty : NekoMaidVM := ⟨[], []⟩

/-- Model of `NekoMaidVM::register_widget`. -/
def NekoMaidVM.register_widget (vm : NekoMaidVM) (definition : WidgetDefinition) : NekoMaidVM :=
  { vm with widgets := listInsert vm.widgets definition.widget definition }

/-- Model of `NekoMaidVM::get_widget_definition`. -/
def NekoMaidVM.get_widget_definition (vm : NekoMaidVM) (widget : NekoWidget) :
    Option WidgetDefinition :=
  listGet vm.widgets widget

/-- Model of `PropertyValue::from_property_node_value`: literals convert
directly; a variable reference is looked up in the context and yields
`VariableNotFound` when absent (`src/vm/properties.rs` lines 130-146). -/
def PropertyValue.from_property_node_value (value : PropertyNodeValue) (ctx : NekoContext) :
    Except NekoMaidVMError PropertyValue :=
  match value with
  | .String s => .ok (.String s)
  | .Number n => .ok (.Number n)
  | .Pixels p => .ok (.Pixels p)
  | .Percent p => .ok (.Percent p)
  | .Bool b => .ok (.Bool b)
  | .Color c => .ok (.Color c)
  | .Variable name position =>
    match ctx.get_variable name with
    | some v => .ok v
    | none => .error (.VariableNotFound name position)

/-- Model of the property-resolution loop shared by `build_styles_recursive`
(`src/vm/style.rs` lines 223-243) and `resolve_layout_node_recursive`
(`src/vm/mod.rs` lines 199-219): a property not defined on the widget yields
`InvalidProperty` and is skipped; an unresolvable value yields its error and
is skipped; otherwise it is set on the style. -/
def resolve_style_properties (widget_name : String) (widget_def : WidgetDefinition)
    (ctx : NekoContext) (props : List PropertyNode) (style : NekoStyle)
    (errors : List NekoMaidVMError) : NekoStyle × List NekoMaidVMError :=
  props.foldl
    (fun (st : NekoStyle × List NekoMaidVMError) property =>
      if (widget_def.get_property property.name).isNone then
        (st.1, st.2 ++ [.InvalidProperty property.name widget_name property.position])
      else
        match PropertyValue.from_property_node_value property.value ctx with
        | .ok v => (st.1.set_property property.name v, st.2)
        | .error e => (st.1, st.2 ++ [e]))
    (style, errors)

/-- The selector-building loop of `build_styles_recursive` (`src/vm/style.rs`
lines 188-210): the node's widget, plus its with/without class parts. -/
def SelectorNode.to_selector (selNode : SelectorNode) : Selector :=
  selNode.parts.foldl
    (fun s part =>
      match part with
      | .WithClass c => s.add_with_class c
      | .WithoutClass c => s.add_without_class c)
    (Selector.new selNode.widget)

mutual

/-- Model of `build_styles_recursive` (`src/vm/style.rs` lines 179-247): an
unknown widget yields `UnknownWidget` and drops the subtree; otherwise the
selector is extended, the children are processed first, and one style is
appended for this node when it declares at least one property. -/
def build_styles_recursive (node : StyleNode) (selector_hierarchy : SelectorHierarchy)
    (styles : List NekoStyle) (ctx : NekoContext) (vm : NekoMaidVM)
    (errors : List NekoMaidVMError) : List NekoStyle × List NekoMaidVMError :=
  match node with
  | .mk selNode properties children =>
    match vm.get_widget_definition selNode.widget with
    | none => (styles, errors ++ [.UnknownWidget selNode.widget selNode.position])
    | some widget_def =>
      let selector_hierarchy := selector_hierarchy.extend selNode.to_selector
      let (styles, errors) :=
        build_styles_children children selector_hierarchy styles ctx vm errors
      if properties.isEmpty then (styles, errors)
      else
        let (style, errors) :=
          resolve_style_properties selNode.widget widget_def ctx properties
            (NekoStyle.new selector_hierarchy) errors
        (styles ++ [style], errors)

/-- The `for child in node.children` loop of `build_styles_recursive`. -/
def build_styles_children (children : List StyleNode) (selector_hierarchy : SelectorHierarchy)
    (styles : List NekoStyle) (ctx : NekoContext) (vm : NekoMaidVM)
    (errors : List NekoMaidVMError) : List NekoStyle × List NekoMaidVMError :=
  match children with
  | [] => (styles, errors)
  | child :: rest =>
    let (styles, errors) :=
      build_styles_recursive child selector_hierarchy styles ctx vm errors
    build_styles_children rest selector_hierarchy styles ctx vm errors

end

/-- Model of `NekoStyle::from_style_node` (`src/vm/style.rs` lines 61-72). -/
def NekoStyle.from_style_node (style_node : StyleNode) (ctx : NekoContext) (vm : NekoMaidVM)
    (errors : List NekoMaidVMError) : List NekoStyle × List NekoMaidVMError :=
  build_styles_recursive style_node SelectorHierarchy.empty [] ctx vm errors

/-- The class-path construction of `resolve_layout_node_recursive`
(`src/vm/mod.rs` lines 166-178): the widget's declared classes are added to a
fresh `WidgetClasses`, which extends the parent class path (or roots a new
one). -/
def layout_classpath (cp : Option ClassPath) (widget : String) (classes : List String) :
    ClassPath :=
  let widget_classes := classes.foldl WidgetClasses.add_class (WidgetClasses.new widget)
  match cp with
  | some path => path.extend widget_classes
  | none => ClassPath.new widget_classes

/-- The candidate-gathering loop of `resolve_layout_node_recursive`
(`src/vm/mod.rs` lines 185-189): every context style whose selector partially
matches the element's class path is inserted at the front. -/
def gather_partial_matches (ctx : NekoContext) (element : NekoElement) : NekoElement :=
  ctx.styles.foldl
    (fun e style =>
      if e.classpath.partial_matches style.selector then e.add_style style else e)
    element

/-- The widget-only selector hierarchy of the inline style
(`src/vm/mod.rs` lines 193-196): one `Selector::new` per class-path entry. -/
def inline_selector_hierarchy (cpath : ClassPath) : SelectorHierarchy :=
  cpath.hierarchy.foldl (fun sh wc => sh.extend (Selector.new wc.widget))
    SelectorHierarchy.empty

mutual

/-- Model of `resolve_layout_node_recursive` (`src/vm/mod.rs` lines 149-233):
an unknown widget yields `UnknownWidget` and drops the node; otherwise the
class path is extended, the element receives the widget default style, then
every partially matching context style (each inserted at the front), then a
synthesized inline style when the node declares properties, and finally the
resolved children. -/
def resolve_layout_node_recursive (node : LayoutNode) (classpath : Option ClassPath)
    (ctx : NekoContext) (vm : NekoMaidVM) (errors : List NekoMaidVMError) :
    Option NekoElement × List NekoMaidVMError :=
  match node with
  | .mk widget classes properties children position =>
    match vm.get_widget_definition widget with
    | none => (none, errors ++ [.UnknownWidget widget position])
    | some widget_def =>
      let cpath := layout_classpath classpath widget classes
      let element := NekoElement.new cpath
      let element := element.add_style widget_def.default_style
      let element := gather_partial_matches ctx element
      let (element, errors) :=
        if properties.isEmpty then (element, errors)
        else
          let (style, errors) :=
            resolve_style_properties widget widget_def ctx properties
              (NekoStyle.new (inline_selector_hierarchy element.classpath)) errors
          (element.add_style style, errors)
      let (children_elements, errors) :=
        resolve_layout_children children element.classpath ctx vm errors
      (some (children_elements.foldl NekoElement.add_child element), errors)

/-- The `for child in node.children` loop of `resolve_layout_node_recursive`:
a child that fails to resolve is omitted from the parent's children. -/
def resolve_layout_children (children : List LayoutNode) (classpath : ClassPath)
    (ctx : NekoContext) (vm : NekoMaidVM) (errors : List NekoMaidVMError) :
    List NekoElement × List NekoMaidVMError :=
  match children with
  | [] => ([], errors)
  | child :: rest =>
    match resolve_layout_node_recursive child (some classpath) ctx vm errors with
    | (some el, errors) =>
      let (rest_els, errors) := resolve_layout_children rest classpath ctx vm errors
      (el :: rest_els, errors)
    | (none, errors) => resolve_layout_children rest classpath ctx vm errors

end

/-- The import phase of `NekoMaidVM::resolve_module` (`src/vm/mod.rs` lines
63-73): a missing import yields `ModuleNotFound` (non-fatal); a found context
is merged via `NekoContext::append`. -/
def resolve_imports (vm : NekoMaidVM) (st : NekoContext × List NekoMaidVMError)
    (imports : List ImportNode) : NekoContext × List NekoMaidVMError :=
  imports.foldl
    (fun st imp =>
      match listGet vm.contexts imp.path with
      | none => (st.1, st.2 ++ [.ModuleNotFound imp.path imp.position])
      | some imported => (st.1.append imported, st.2))
    st

/-- One iteration of the variable phase of `NekoMaidVM::resolve_module`
(`src/vm/mod.rs` lines 76-86): the value is resolved against the in-progress
context; on failure the error is recorded and the declaration is skipped. -/
def resolve_variable_step (st : NekoContext × List NekoMaidVMError) (var : PropertyNode) :
    NekoContext × List NekoMaidVMError :=
  match PropertyValue.from_property_node_value var.value st.1 with
  | .ok value => (st.1.set_variable var.name value, st.2)
  | .error e => (st.1, st.2 ++ [e])

/-- The variable phase of `NekoMaidVM::resolve_module`: declarations are
processed in declaration order against the in-progress context. -/
def resolve_variables (st : NekoContext × List NekoMaidVMError)
    (vars : List PropertyNode) : NekoContext × List NekoMaidVMError :=
  vars.foldl resolve_variable_step st

/-- The style phase of `NekoMaidVM::resolve_module` (`src/vm/mod.rs` lines
89-93): each style node is expanded and every resolved style added to the
context. -/
def resolve_styles (vm : NekoMaidVM) (st : NekoContext × List NekoMaidVMError)
    (styles : List StyleNode) : NekoContext × List NekoMaidVMError :=
  styles.foldl
    (fun st style =>
      let (resolved, errors) := NekoStyle.from_style_node style st.1 vm st.2
      (resolved.foldl NekoContext.add_style st.1, errors))
    st

/-- The layout phase of `NekoMaidVM::resolve_module` (`src/vm/mod.rs` lines
96-102): each resolved tree is collected; a failed tree is omitted. -/
def resolve_layouts (vm : NekoMaidVM) (ctx : NekoContext)
    (st : List NekoElement × List NekoMaidVMError) (layouts : List LayoutNode) :
    List NekoElement × List NekoMaidVMError :=
  layouts.foldl
    (fun st layout =>
      match resolve_layout_node_recursive layout none ctx vm st.2 with
      | (some el, errors) => (st.1 ++ [el], errors)
      | (none, errors) => (st.1, errors))
    st

/-- The error-collecting body of `NekoMaidVM::resolve_module` (`src/vm/mod.rs`
lines 55-104): imports, variables, styles and layouts resolved in fixed
order against a fresh context, accumulating every error. -/
def NekoMaidVM.resolve_module_core (vm : NekoMaidVM) (module : ModuleNode) :
    NekoContext × List NekoElement × List NekoMaidVMError :=
  let st := resolve_imports vm (NekoContext.empty, []) module.imports
  let st := resolve_variables st module.vars
  let st := resolve_styles vm st module.styles
  let (elements, errors) := resolve_layouts vm st.1 ([], st.2) module.layouts
  (st.1, elements, errors)

/-- Model of `NekoMaidVM::resolve_module` (`src/vm/mod.rs` lines 105-111): on
an empty error list the context is committed under the module name and the
elements returned; otherwise the VM is left untouched and all errors are
returned. -/
def NekoMaidVM.resolve_module (vm : NekoMaidVM) (module_name : String) (module : ModuleNode) :
    NekoMaidVM × Except (List NekoMaidVMError) (List NekoElement) :=
  let (context, elements, errors) := vm.resolve_module_core module
  if errors.isEmpty then
    ({ vm with contexts := listInsert vm.contexts module_name context }, .ok elements)
  else (vm, .error errors)

/-- The context allocator (`src/vm/allocator.rs`, `NekoContextAllocator`):
four name-to-id tables sharing one incrementor.  Ids are `Nat` models of the
`u64` wrappers; the source field `variable` is named `vars` here (`variable`
is reserved in Lean). -/
structure NekoContextAllocator where
  incrementor : Nat
  widgets : List (String × Nat)
  properties : List (String × Nat)
  classes : List (String × Nat)
  vars : List (String × Nat)
deriving DecidableEq, Repr

/-- Model of `NekoContextAllocator::new`. -/
def NekoContextAllocator.new : NekoContextAllocator := ⟨0, [], [], [], []⟩

/-- Model of `NekoContextAllocator::get_or_create_widget`: return the existing
id, or bump the shared incrementor and record the fresh id. -/
def NekoContextAllocator.get_or_create_widget (a : NekoContextAllocator) (name : String) :
    Nat × NekoContextAllocator :=
  match listGet a.widgets name with
  | some widget => (widget, a)
  | none =>
    let widget := a.incrementor + 1
    (widget, { a with incrementor := widget, widgets := listInsert a.widgets name widget })

/-- Model of `NekoContextAllocator::get_or_create_property`. -/
def NekoContextAllocator.get_or_create_property (a : NekoContextAllocator) (name : String) :
    Nat × NekoContextAllocator :=
  match listGet a.properties name with
  | some property => (property, a)
  | none =>
    let property := a.incrementor + 1
    (property,
      { a with incrementor := property, properties := listInsert a.properties name property })

/-- Model of `NekoContextAllocator::get_or_create_class`. -/
def NekoContextAllocator.get_or_create_class (a : NekoContextAllocator) (name : String) :
    Nat × NekoContextAllocator :=
  match listGet a.classes name with
  | some cls => (cls, a)
  | none =>
    let cls := a.incrementor + 1
    (cls, { a with incrementor := cls, classes := listInsert a.classes name cls })

/-- Model of `NekoContextAllocator::get_or_create_variable`. -/
def NekoContextAllocator.get_or_create_variable (a : NekoContextAllocator) (name : String) :
    Nat × NekoContextAllocator :=
  match listGet a.vars name with
  | some v => (v, a)
  | none =>
    let v := a.incrementor + 1
    (v, { a with incrementor := v, vars := listInsert a.vars name v })


/-- Shorthand for the default token position; positions are irrelevant to the
resolution results (they only travel into error values). -/
def pos0 : TokenPosition := TokenPosition.default

/-- The red test color, `Color::srgb(1.0, 0.0, 0.0)` (what `#ff0000` parses
to). -/
def fx_red : PropertyValue := .Color (NekoColor.srgb 1 0 0)

/-- The green test color, `Color::srgb(0.0, 1.0, 0.0)`. -/
def fx_green : PropertyValue := .Color (NekoColor.srgb 0 1 0)

/-- The blue test color, `Color::srgb(0.0, 0.0, 1.0)`. -/
def fx_blue : PropertyValue := .Color (NekoColor.srgb 0 0 1)

/-- The white test color, `Color::srgb(1.0, 1.0, 1.0)`. -/
def fx_white : PropertyValue := .Color (NekoColor.srgb 1 1 1)

/-- The transparent test color, `Color::NONE`. -/
def fx_transparent : PropertyValue := .Color NekoColor.none

/-- The property set registered for both test widgets in
`src/vm/test.rs` (`resolve_nekomaid_ui`). -/
def fx_widget_props : List (NekoProperty × PropertyDefinition) :=
  [("width", ⟨"width", .String "auto"⟩),
   ("height", ⟨"height", .String "auto"⟩),
   ("background-color", ⟨"background-color", fx_transparent⟩),
   ("border-color", ⟨"border-color", fx_transparent⟩),
   ("border-width", ⟨"border-width", .Pixels 0⟩),
   ("border-radius", ⟨"border-radius", .Pixels 0⟩)]

/-- The test VM of `resolve_nekomaid_ui`: `div` and `button` widget
definitions registered. -/
def fx_vm : NekoMaidVM :=
  (NekoMaidVM.empty.register_widget ⟨"div", fx_widget_props⟩).register_widget
    ⟨"button", fx_widget_props⟩

/-- The AST of `UI_SOURCE_1` from `src/vm/test.rs`: three variables and the
styles `button`, `button +hover`, `button +pressed`, in that order. -/
def fx_module_one : ModuleNode :=
  { imports := []
    vars :=
      [⟨"press_col", .Color (NekoColor.srgb 1 0 0), pos0⟩,
       ⟨"hover_col", .Color (NekoColor.srgb 0 1 0), pos0⟩,
       ⟨"down_col", .Color (NekoColor.srgb 0 0 1), pos0⟩]
    styles :=
      [.mk ⟨"button", [], pos0⟩
        [⟨"width", .Pixels 100, pos0⟩,
         ⟨"height", .Pixels 50, pos0⟩,
         ⟨"background-color", .Variable "press_col" pos0, pos0⟩] [],
       .mk ⟨"button", [.WithClass "hover"], pos0⟩
        [⟨"background-color", .Variable "hover_col" pos0, pos0⟩] [],
       .mk ⟨"button", [.WithClass "pressed"], pos0⟩
        [⟨"background-color", .Variable "down_col" pos0, pos0⟩] []]
    layouts := [] }

/-- The AST of `UI_SOURCE_2` from `src/vm/test.rs`: imports `UI_SOURCE_1`,
re-declares `down_col`, and lays out `div { +outer-menu; with button {
border-color: $press_col; border-width: 2px; } }`. -/
def fx_module_two : ModuleNode :=
  { imports := [⟨"UI_SOURCE_1", pos0⟩]
    vars := [⟨"down_col", .Color (NekoColor.srgb 1 1 1), pos0⟩]
    styles := []
    layouts :=
      [.mk "div" ["outer-menu"] []
        [.mk "button" []
          [⟨"border-color", .Variable "press_col" pos0, pos0⟩,
           ⟨"border-width", .Pixels 2, pos0⟩] [] pos0] pos0] }

/-- The VM after resolving `UI_SOURCE_1`. -/
def fx_vm1 : NekoMaidVM := (fx_vm.resolve_module "UI_SOURCE_1" fx_module_one).1

/-- The result of resolving `UI_SOURCE_2` against `fx_vm1`. -/
def fx_result_two : NekoMaidVM × Except (List NekoMaidVMError) (List NekoElement) :=
  fx_vm1.resolve_module "UI_SOURCE_2" fx_module_two

/-- The inline layout style the resolved button element must carry: selector
is the widget-only version of its class path, properties are the layout
node's own. -/
def fx_inline_style : NekoStyle :=
  ⟨⟨[Selector.new "div", Selector.new "button"]⟩,
   [("border-color", fx_red), ("border-width", .Pixels 2)]⟩

/-- The resolved `button +pressed` rule. -/
def fx_pressed_style : NekoStyle :=
  ⟨⟨[⟨"button", ["pressed"], []⟩]⟩, [("background-color", fx_blue)]⟩

/-- The resolved `button +hover` rule. -/
def fx_hover_style : NekoStyle :=
  ⟨⟨[⟨"button", ["hover"], []⟩]⟩, [("background-color", fx_green)]⟩

/-- The resolved base `button` rule. -/
def fx_button_style : NekoStyle :=
  ⟨⟨[⟨"button", [], []⟩]⟩,
   [("width", .Pixels 100), ("height", .Pixels 50), ("background-color", fx_red)]⟩

/-- The widget default style of the `button` definition: one entry holding
every registered default. -/
def fx_button_default_style : NekoStyle :=
  ⟨⟨[⟨"button", [], []⟩]⟩,
   [("width", .String "auto"),
    ("height", .String "auto"),
    ("background-color", fx_transparent),
    ("border-color", fx_transparent),
    ("border-width", .Pixels 0),
    ("border-radius", .Pixels 0)]⟩


/-- The newline character (named because escaped character literals are
written via `Char.ofNat` throughout). -/
def newline_char : Char := Char.ofNat 10

/-- The double-quote character. -/
def double_quote_char : Char := Char.ofNat 34

/-- The single-quote character. -/
def single_quote_char : Char := Char.ofNat 39

/-- The backquote character. -/
def backquote_char : Char := Char.ofNat 96

/-- Position state of the tokenizer (`src/parse/token.rs`,
`TokenizerPosition`, minus the character iterator, which is passed as a
list). -/
structure LexPos where
  line : Nat
  column : Nat
deriving DecidableEq, Repr

/-- Token kinds (`src/parse/token.rs`, `TokenType`). -/
inductive TokenType where
  | Identifier
  | StringLiteral
  | NumberLiteral
  | ColorLiteral
  | BooleanLiteral
  | WithClass
  | WithoutClass
  | PropertyValue
  | EndOfStatement
  | BeginProperties
  | EndProperties
  | Percent
  | Variable
  | ImportKeyword
  | PxKeyword
  | StyleKeyword
  | VarKeyword
  | LayoutKeyword
  | WithKeyword
deriving DecidableEq, Repr

/-- Token payloads (`src/parse/token.rs`, `TokenValue`). -/
inductive TokenValue where
  | None
  | String (s : String)
  | Number (n : Rat)
  | Color (c : NekoColor)
  | Boolean (b : Bool)
deriving DecidableEq, Repr

/-- A token (`src/parse/token.rs`, `Token`). -/
structure Token where
  token_type : TokenType
  position : TokenPosition
  value : TokenValue
deriving DecidableEq, Repr

/-- Tokenization errors (`src/parse/token.rs`, `TokenizeError`). -/
inductive TokenizeError where
  | UnexpectedCharacter (c : Char) (position : TokenPosition)
  | UnexpectedEndOfInput
  | InvalidNumberFormat (s : String) (position : TokenPosition)
  | InvalidColorFormat (s : String) (position : TokenPosition)
deriving DecidableEq, Repr

/-- Model of `identifier_char` (`src/parse/token.rs` lines 494-496): ASCII
alphanumeric, underscore or dash. -/
def identifier_char (c : Char) : Bool :=
  c.isAlphanum || c == Char.ofNat 95 || c == Char.ofNat 45

/-- Model of `digit_char` (`src/parse/token.rs` lines 499-501): an ASCII
digit or the decimal point — note that the minus sign is not accepted. -/
def digit_char (c : Char) : Bool :=
  c.isDigit || c == Char.ofNat 46

/-- Model of `hex_char` (`src/parse/token.rs` lines 504-506). -/
def hex_char (c : Char) : Bool :=
  c.isDigit || (Char.ofNat 97 ≤ c && c ≤ Char.ofNat 102) ||
    (Char.ofNat 65 ≤ c && c ≤ Char.ofNat 70)

/-- Numeric value of a hexadecimal digit. -/
def hex_digit_val (c : Char) : Nat :=
  if c.isDigit then c.toNat - 48
  else if Char.ofNat 97 ≤ c then c.toNat - 97 + 10
  else c.toNat - 65 + 10

/-- Model of `hex_to_byte` (`src/parse/token.rs` lines 611-622), i.e.
`u8::from_str_radix(s, 16)`: fails on an empty string, a non-hex character,
or a value that does not fit in a byte. -/
def hex_to_byte (s : String) : Except TokenizeError Nat :=
  if s.data.isEmpty || !s.data.all hex_char then
    .error (.InvalidColorFormat s ⟨0, 0, s.length⟩)
  else
    let v := s.data.foldl (fun acc c => 16 * acc + hex_digit_val c) 0
    if v ≤ 255 then .ok v else .error (.InvalidColorFormat s ⟨0, 0, s.length⟩)

/-- Model of `hex_to_color` (`src/parse/token.rs` lines 584-607): 3-digit
form duplicates each nibble; 6 and 8 digit forms are RGB(A); any other
length is `InvalidColorFormat`. -/
def hex_to_color (hex : String) (pos : TokenPosition) : Except TokenizeError NekoColor :=
  match hex.data with
  | [a, b, c] => do
    let r ← hex_to_byte (String.mk [a, a])
    let g ← hex_to_byte (String.mk [b, b])
    let bl ← hex_to_byte (String.mk [c, c])
    .ok (NekoColor.srgb_u8 r g bl)
  | [a, b, c, d, e, f] => do
    let r ← hex_to_byte (String.mk [a, b])
    let g ← hex_to_byte (String.mk [c, d])
    let bl ← hex_to_byte (String.mk [e, f])
    .ok (NekoColor.srgb_u8 r g bl)
  | [a, b, c, d, e, f, g, h] => do
    let r ← hex_to_byte (String.mk [a, b])
    let gr ← hex_to_byte (String.mk [c, d])
    let bl ← hex_to_byte (String.mk [e, f])
    let al ← hex_to_byte (String.mk [g, h])
    .ok (NekoColor.srgba_u8 r gr bl al)
  | _ => .error (.InvalidColorFormat hex pos)

/-- Decimal value of a digit string. -/
def digits_val (cs : List Char) : Nat :=
  cs.foldl (fun acc c => 10 * acc + (c.toNat - 48)) 0

/-- Model of Rust `str::parse::<f64>` restricted to an optional sign followed
by digits with at most one decimal point (the tokenizer's number buffer can
only contain digits and dots, since `digit_char` admits nothing else, so the
restriction is exact on every reachable input).  The empty string, a bare
sign or dot, a second dot, and any other character all fail, as in Rust.
Values are carried exactly as rationals. -/
def parse_f64 (s : String) : Option Rat :=
  let signed : Bool × List Char :=
    match s.data with
    | c :: r =>
      if c == Char.ofNat 45 then (true, r)
      else if c == Char.ofNat 43 then (false, r) else (false, s.data)
    | [] => (false, [])
  let neg := signed.1
  let rest := signed.2
  let intPart := rest.takeWhile Char.isDigit
  let rest2 := rest.dropWhile Char.isDigit
  let apply_sign : Rat → Rat := fun m => if neg then -m else m
  match rest2 with
  | [] => if intPart.isEmpty then none else some (apply_sign (digits_val intPart : Rat))
  | c :: frac =>
    if c == Char.ofNat 46 && frac.all Char.isDigit &&
        !(intPart.isEmpty && frac.isEmpty) then
      some (apply_sign
        ((digits_val intPart : Rat) + (digits_val frac : Rat) / ((10 : Rat) ^ frac.length)))
    else none

/-- Model of `str_to_num` (`src/parse/token.rs` lines 509-521): parse failure
is `InvalidNumberFormat` carrying the offending text and its position. -/
def str_to_num (value : String) (pos : LexPos) : Except TokenizeError Rat :=
  match parse_f64 value with
  | some n => .ok n
  | none => .error (.InvalidNumberFormat value ⟨pos.line, pos.column, value.length⟩)

/-- The whitespace- and comment-skipping head of the `loop` in `next`
(`src/parse/token.rs` lines 255-271, with the `//`-comment arm at lines
469-478).  The source's inner `for`-loop over the comment body is fused into
this single traversal through the `in_comment` flag: while it is set,
characters are consumed (bumping the column) until a newline resets it, which
is exactly what the source's loop does before re-entering the outer `loop`. -/
def skip_ws_comments : List Char → LexPos → Bool → List Char × LexPos
  | [], pos, _ => ([], pos)
  | c :: rest, pos, true =>
    if c == newline_char then skip_ws_comments rest ⟨pos.line + 1, 1⟩ false
    else skip_ws_comments rest ⟨pos.line, pos.column + 1⟩ true
  | c :: rest, pos, false =>
    if c.isWhitespace then
      if c == newline_char then skip_ws_comments rest ⟨pos.line + 1, 1⟩ false
      else skip_ws_comments rest ⟨pos.line, pos.column + 1⟩ false
    else if c == Char.ofNat 47 then
      skip_ws_comments rest ⟨pos.line, pos.column + 1⟩ true
    else (c :: rest, pos)

/-- Scan for the closing quote of a string literal (the `for n in
position.chars.by_ref()` loop of the string arm, `src/parse/token.rs` lines
296-313): returns the buffer and the input after the closing quote, or
`none` at the end of input. -/
def take_quoted (q : Char) : List Char → Option (List Char × List Char)
  | [] => none
  | c :: cs =>
    if c == q then some ([], cs)
    else
      match take_quoted q cs with
      | some (buf, rest) => some (c :: buf, rest)
      | none => none

/-- Model of `next` (`src/parse/token.rs` lines 254-491) after whitespace and
comments are skipped: dispatch on the first remaining character.  Note the
number arm: it is entered by a digit, a dot or a minus sign, but the buffer
only collects `digit_char` characters, so a leading minus is never consumed
into the buffer. -/
def next_token (cs : List Char) (pos : LexPos) :
    Except TokenizeError (Option (Token × List Char × LexPos)) :=
  match skip_ws_comments cs pos false with
  | ([], _) => .ok none
  | (c :: rest, pos) =>
    if c.isAlpha || c == Char.ofNat 95 then
      let buffer := (c :: rest).takeWhile identifier_char
      let remaining := (c :: rest).dropWhile identifier_char
      let len := buffer.length
      .ok (some
        ({ token_type := .Identifier, value := .String (String.mk buffer),
           position := ⟨pos.line, pos.column, len⟩ },
         remaining, ⟨pos.line, pos.column + len⟩))
    else if c == double_quote_char || c == single_quote_char || c == backquote_char then
      match take_quoted c rest with
      | none => .error .UnexpectedEndOfInput
      | some (buffer, remaining) =>
        let len := buffer.length
        .ok (some
          ({ token_type := .StringLiteral, value := .String (String.mk buffer),
             position := ⟨pos.line, pos.column, len + 2⟩ },
           remaining, ⟨pos.line, pos.column + len + 2⟩))
    else if c.isDigit || c == Char.ofNat 46 || c == Char.ofNat 45 then
      let buffer := (c :: rest).takeWhile digit_char
      let remaining := (c :: rest).dropWhile digit_char
      let len := buffer.length
      match str_to_num (String.mk buffer) pos with
      | .error e => .error e
      | .ok number =>
        .ok (some
          ({ token_type := .NumberLiteral, value := .Number number,
             position := ⟨pos.line, pos.column, len⟩ },
           remaining, ⟨pos.line, pos.column + len⟩))
    else if c == '$' then
      .ok (some
        ({ token_type := .Variable, value := .None,
           position := ⟨pos.line, pos.column, 1⟩ }, rest, ⟨pos.line, pos.column + 1⟩))
    else if c == '+' then
      .ok (some
        ({ token_type := .WithClass, value := .None,
           position := ⟨pos.line, pos.column, 1⟩ }, rest, ⟨pos.line, pos.column + 1⟩))
    else if c == '!' then
      .ok (some
        ({ token_type := .WithoutClass, value := .None,
           position := ⟨pos.line, pos.column, 1⟩ }, rest, ⟨pos.line, pos.column + 1⟩))
    else if c == '#' then
      let buffer := rest.takeWhile hex_char
      let remaining := rest.dropWhile hex_char
      let len := buffer.length + 1
      match hex_to_color (String.mk buffer) ⟨pos.line, pos.column, len⟩ with
      | .error e => .error e
      | .ok color =>
        .ok (some
          ({ token_type := .ColorLiteral, value := .Color color,
             position := ⟨pos.line, pos.column, len⟩ },
           remaining, ⟨pos.line, pos.column + len⟩))
    else if c == '{' then
      .ok (some
        ({ token_type := .BeginProperties, value := .None,
           position := ⟨pos.line, pos.column, 1⟩ }, rest, ⟨pos.line, pos.column + 1⟩))
    else if c == '}' then
      .ok (some
        ({ token_type := .EndProperties, value := .None,
           position := ⟨pos.line, pos.column, 1⟩ }, rest, ⟨pos.line, pos.column + 1⟩))
    else if c == ':' then
      .ok (some
        ({ token_type := .PropertyValue, value := .None,
           position := ⟨pos.line, pos.column, 1⟩ }, rest, ⟨pos.line, pos.column + 1⟩))
    else if c == ';' then
      .ok (some
        ({ token_type := .EndOfStatement, value := .None,
           position := ⟨pos.line, pos.column, 1⟩ }, rest, ⟨pos.line, pos.column + 1⟩))
    else if c == '%' then
      .ok (some
        ({ token_type := .Percent, value := .None,
           position := ⟨pos.line, pos.column, 1⟩ }, rest, ⟨pos.line, pos.column + 1⟩))
    else .error (.UnexpectedCharacter c ⟨pos.line, pos.column, 1⟩)

/-- Model of `map_imports` (`src/parse/token.rs` lines 207-251): remap
keyword identifiers to their keyword token types. -/
def map_imports (t : Token) : Token :=
  if t.token_type != TokenType.Identifier then t
  else
    match t.value with
    | .String ident =>
      if ident == "import" then { t with token_type := .ImportKeyword, value := .None }
      else if ident == "px" then { t with token_type := .PxKeyword, value := .None }
      else if ident == "true" then
        { t with token_type := .BooleanLiteral, value := .Boolean true }
      else if ident == "false" then
        { t with token_type := .BooleanLiteral, value := .Boolean false }
      else if ident == "style" then { t with token_type := .StyleKeyword, value := .None }
      else if ident == "var" then { t with token_type := .VarKeyword, value := .None }
      else if ident == "layout" then { t with token_type := .LayoutKeyword, value := .None }
      else if ident == "with" then { t with token_type := .WithKeyword, value := .None }
      else t
    | _ => t

/-- The `while let Some(mut token) = next(&mut position)?` loop of `tokenize`
(`src/parse/token.rs` lines 188-203).  The fuel bound is `input length + 1`,
which is never exhausted: every emitted token consumes at least one input
character (the fuel-out branch is dead code). -/
def tokenize_loop : Nat → List Char → LexPos → Except TokenizeError (List Token)
  | 0, _, _ => .error .UnexpectedEndOfInput
  | fuel + 1, cs, pos =>
    match next_token cs pos with
    | .error e => .error e
    | .ok none => .ok []
    | .ok (some (t, rest, pos')) =>
      match tokenize_loop fuel rest pos' with
      | .error e => .error e
      | .ok ts => .ok (map_imports t :: ts)

/-- Model of `tokenize` (`src/parse/token.rs` lines 188-203). -/
def tokenize (input : String) : Except TokenizeError (List Token) :=
  tokenize_loop (input.length + 1) input.data ⟨1, 1⟩


/-- Module with one unknown widget (in a style) and one invalid property (in
an unrelated layout declaration), for the error-collection claims. -/
def fx_module_bad : ModuleNode :=
  { imports := []
    vars := []
    styles := [.mk ⟨"verybad", [], pos0⟩ [⟨"width", .Pixels 1, pos0⟩] []]
    layouts := [.mk "div" [] [⟨"bogus-prop", .Pixels 1, pos0⟩] [] pos0] }

/-- Imported module for the import-merge claim: variable `V = red` and one
`button` style `S`. -/
def fx_module_imp_a : ModuleNode :=
  { imports := []
    vars := [⟨"V", .Color (NekoColor.srgb 1 0 0), pos0⟩]
    styles := [.mk ⟨"button", [], pos0⟩ [⟨"width", .Pixels 5, pos0⟩] []]
    layouts := [] }

/-- Importer that only re-declares `V = white`. -/
def fx_module_imp_b : ModuleNode :=
  { imports := [⟨"A", pos0⟩]
    vars := [⟨"V", .Color (NekoColor.srgb 1 1 1), pos0⟩]
    styles := []
    layouts := [] }

/-- Importer that re-declares `V = white` and a `button` style with the
identical selector, conflicting on `width`. -/
def fx_module_imp_b2 : ModuleNode :=
  { imports := [⟨"A", pos0⟩]
    vars := [⟨"V", .Color (NekoColor.srgb 1 1 1), pos0⟩]
    styles :=
      [.mk ⟨"button", [], pos0⟩
        [⟨"width", .Pixels 9, pos0⟩, ⟨"height", .Pixels 7, pos0⟩] []]
    layouts := [] }

/-- The VM after resolving the imported module `A`. -/
def fx_vm_a : NekoMaidVM := (fx_vm.resolve_module "A" fx_module_imp_a).1

/-- The two-level style node of the `from_style_node` unit test in
`src/vm/style.rs`: a `div +container` level with two properties containing a
`button +hover !pressed` level with one property. -/
def fx_style_node : StyleNode :=
  .mk ⟨"div", [.WithClass "container"], pos0⟩
    [⟨"background-color", .Color (NekoColor.srgb 1 1 1), pos0⟩,
     ⟨"border-color", .Color (NekoColor.srgb 1 0 0), pos0⟩]
    [.mk ⟨"button", [.WithClass "hover", .WithoutClass "pressed"], pos0⟩
      [⟨"background-color", .Color (NekoColor.srgb 0 1 0), pos0⟩] []]

mutual

/-- Whether every widget named in the style tree has a registered
definition. -/
def style_widgets_known (vm : NekoMaidVM) : StyleNode → Bool
  | .mk selNode _ children =>
    (vm.get_widget_definition selNode.widget).isSome &&
      style_list_widgets_known vm children

/-- List version of `style_widgets_known`. -/
def style_list_widgets_known (vm : NekoMaidVM) : List StyleNode → Bool
  | [] => true
  | c :: rest => style_widgets_known vm c && style_list_widgets_known vm rest

end

mutual

/-- Modelled from the amended claim for style expansion: the expected
selector hierarchies of the emitted `ResolvedStyle`s, one per nesting level
that declares at least one property, in depth-first order with each node's
children's entries emitted before the node's own entry. -/
def spec_style_selectors (node : StyleNode) (selector_hierarchy : SelectorHierarchy) :
    List SelectorHierarchy :=
  match node with
  | .mk selNode properties children =>
    let extended := selector_hierarchy.extend selNode.to_selector
    spec_style_selectors_list children extended ++
      (if properties.isEmpty then [] else [extended])

/-- List version of `spec_style_selectors`. -/
def spec_style_selectors_list (children : List StyleNode)
    (selector_hierarchy : SelectorHierarchy) : List SelectorHierarchy :=
  match children with
  | [] => []
  | c :: rest =>
    spec_style_selectors c selector_hierarchy ++
      spec_style_selectors_list rest selector_hierarchy

end

/-- Variable declarations for the resolution-ordering claim: `b` references
the earlier `a`; `c` references `d`, which is only declared later. -/
def fx_vars_demo : List PropertyNode :=
  [⟨"a", .Color (NekoColor.srgb 1 0 0), pos0⟩,
   ⟨"b", .Variable "a" pos0, pos0⟩,
   ⟨"c", .Variable "d" pos0, pos0⟩,
   ⟨"d", .Color (NekoColor.srgb 0 0 1), pos0⟩]

/-- The classpath `[div(+outer-menu), button()]` of the matching claim. -/
def fx_classpath : ClassPath := ⟨[⟨"div", ["outer-menu"]⟩, ⟨"button", []⟩]⟩

/-- The selector hierarchy `[div, button+hover]` of the matching claim. -/
def fx_hierarchy : SelectorHierarchy :=
  ⟨[Selector.new "div", ⟨"button", ["hover"], []⟩]⟩

/-- Class paths reachable through the public constructors `ClassPath::new`,
`ClassPath::extend` and `ClassPath::chain`. -/
inductive ClassPath.Built : ClassPath → Prop where
  | new (w : WidgetClasses) : ClassPath.Built (ClassPath.new w)
  | extend {p : ClassPath} (w : WidgetClasses) :
      ClassPath.Built p → ClassPath.Built (p.extend w)
  | chain {p q : ClassPath} :
      ClassPath.Built p → ClassPath.Built q → ClassPath.Built (p.chain q)

/-- A layout node whose every property fails to resolve: one property unknown
to the widget, one referencing an undeclared variable. -/
def fx_bad_layout : LayoutNode :=
  .mk "div" []
    [⟨"bogus-prop", .Pixels 1, pos0⟩, ⟨"width", .Variable "nope" pos0, pos0⟩]
    [] pos0


/-- C1: for the two-module fixture (styles declared in order `button`,
`button+hover`, `button+pressed`, and a layout `div { +outer-menu; with
button { ... } }` resolved against a VM with `div` and `button` widget
definitions registered), the resolved button element's style list, front to
back, is exactly: the inline layout style, the pressed rule, the hover rule,
the base button rule, and the widget default style holding every registered
default. -/
theorem C1_cascade_precedence :
    fx_result_two.2.map (List.map fun root => root.children.map NekoElement.styles) =
      .ok [[[fx_inline_style, fx_pressed_style, fx_hover_style, fx_button_style,
        fx_button_default_style]]] := rfl

/-- C7 evaluation at the failing input: tokenizing `"-5"` yields
`InvalidNumberFormat` on the empty string instead of `Number(-5.0)` — the
minus sign selects the number arm but `digit_char` never consumes it, so the
number buffer stays empty. -/
theorem C7_tokenize_minus_five_fails :
    tokenize "-5" =
      .error (.InvalidNumberFormat "" ⟨1, 1, 0⟩) := rfl


/-- Looking up the key just inserted finds the inserted value. -/
theorem listGet_listInsert_self {α β : Type} [BEq α] [LawfulBEq α]
    (m : List (α × β)) (k : α) (v : β) : listGet (listInsert m k v) k = some v := by
  induction m with
  | nil => simp [listInsert, listGet]
  | cons p rest ih =>
    obtain ⟨k', v'⟩ := p
    by_cases h : k' == k
    · simp [listInsert, listGet, h]
    · simp [listInsert, listGet, h, ih]

/-- Inserting one key does not change the binding of another. -/
theorem listGet_listInsert_ne {α β : Type} [BEq α] [LawfulBEq α]
    (m : List (α × β)) (k k' : α) (v : β) (h : (k == k') = false) :
    listGet (listInsert m k v) k' = listGet m k' := by
  induction m with
  | nil => simp [listInsert, listGet, h]
  | cons p rest ih =>
    obtain ⟨k0, v0⟩ := p
    by_cases h0 : k0 == k
    · have hne : (k0 == k') = false := by
        have hk : k0 = k := by simp_all
        subst hk
        exact h
      simp [listInsert, listGet, h0, hne]
    · simp [listInsert, listGet, h0, ih]

/-- C2: `resolve_module` commits if and only if no error was collected: on
success the freshly built context is stored under the module name, on any
error the full error list is returned and the VM is exactly what it was
before the call; in particular the fixture module with one unknown widget
and one invalid property in unrelated declarations yields exactly those two
errors and is absent from the contexts table afterward. -/
theorem C2_resolve_module_all_or_nothing :
    (∀ (vm : NekoMaidVM) (name : String) (module : ModuleNode),
      ((vm.resolve_module name module).2 = .ok (vm.resolve_module_core module).2.1 ↔
        (vm.resolve_module_core module).2.2 = []) ∧
      ((vm.resolve_module_core module).2.2 = [] →
        (vm.resolve_module name module).1 =
          { vm with
            contexts := listInsert vm.contexts name (vm.resolve_module_core module).1 }) ∧
      (∀ errors, (vm.resolve_module name module).2 = .error errors →
        errors = (vm.resolve_module_core module).2.2 ∧ errors ≠ [] ∧
          (vm.resolve_module name module).1 = vm)) ∧
    fx_vm.resolve_module "BAD" fx_module_bad =
      (fx_vm,
        .error [.UnknownWidget "verybad" pos0,
          .InvalidProperty "bogus-prop" "div" pos0]) ∧
    listGet (fx_vm.resolve_module "BAD" fx_module_bad).1.contexts "BAD" = none := by
  refine ⟨fun vm name module => ?_, rfl, rfl⟩
  unfold NekoMaidVM.resolve_module
  rcases hcore : vm.resolve_module_core module with ⟨ctx, elements, errors⟩
  cases errors with
  | nil => simp
  | cons e es => simp

/-- C2 witness: the error branch of the theorem applied to the fixture bad
module. -/
theorem C2_resolve_module_all_or_nothing_witness :
    ([.UnknownWidget "verybad" pos0, .InvalidProperty "bogus-prop" "div" pos0] :
        List NekoMaidVMError) =
      (fx_vm.resolve_module_core fx_module_bad).2.2 ∧
    ([.UnknownWidget "verybad" pos0, .InvalidProperty "bogus-prop" "div" pos0] :
        List NekoMaidVMError) ≠ [] ∧
    (fx_vm.resolve_module "BAD" fx_module_bad).1 = fx_vm :=
  (C2_resolve_module_all_or_nothing.1 fx_vm "BAD" fx_module_bad).2.2 _ rfl

/-- C5: variable declarations are processed in order against the in-progress
context (splitting the list splits the fold); a reference to a variable
present in the in-progress context resolves to its current value; a
reference to an absent one (declared later or never) yields
`VariableNotFound` and that declaration binds nothing, with resolution
continuing; the fixture `[a=red, b=$a, c=$d, d=blue]` resolves `b` to red,
skips `c` with one error, and still binds `d`. -/
theorem C5_variable_resolution_order :
    (∀ (st : NekoContext × List NekoMaidVMError) (vars₁ vars₂ : List PropertyNode),
      resolve_variables st (vars₁ ++ vars₂) =
        resolve_variables (resolve_variables st vars₁) vars₂) ∧
    (∀ (ctx : NekoContext) (errs : List NekoMaidVMError) (name refName : String)
        (vpos ppos : TokenPosition) (v : PropertyValue),
      ctx.get_variable refName = some v →
        resolve_variable_step (ctx, errs) ⟨name, .Variable refName vpos, ppos⟩ =
          (ctx.set_variable name v, errs)) ∧
    (∀ (ctx : NekoContext) (errs : List NekoMaidVMError) (name refName : String)
        (vpos ppos : TokenPosition),
      ctx.get_variable refName = none →
        resolve_variable_step (ctx, errs) ⟨name, .Variable refName vpos, ppos⟩ =
          (ctx, errs ++ [.VariableNotFound refName vpos])) ∧
    resolve_variables (NekoContext.empty, []) fx_vars_demo =
      (⟨[("a", fx_red), ("b", fx_red), ("d", fx_blue)], []⟩,
        [.VariableNotFound "d" pos0]) := by
  refine ⟨fun st vars₁ vars₂ => ?_, fun ctx errs name refName vpos ppos v h => ?_,
    fun ctx errs name refName vpos ppos h => ?_, rfl⟩
  · simp [resolve_variables, List.foldl_append]
  · simp [resolve_variable_step, PropertyValue.from_property_node_value, h]
  · simp [resolve_variable_step, PropertyValue.from_property_node_value, h]

/-- C5 witness: the absent-variable branch at the empty context. -/
theorem C5_variable_resolution_order_witness :
    resolve_variable_step (NekoContext.empty, []) ⟨"c", .Variable "d" pos0, pos0⟩ =
      (NekoContext.empty, [] ++ [.VariableNotFound "d" pos0]) :=
  C5_variable_resolution_order.2.2.1 NekoContext.empty [] "c" "d" pos0 pos0 rfl

/-- C9: every class path built through the public constructors has a
hierarchy of length at least one, so `last` (and `last_mut`) never reach the
empty case. -/
theorem C9_classpath_hierarchy_nonempty (p : ClassPath) (h : p.Built) :
    1 ≤ p.depth ∧ p.last.isSome := by
  have hd : 1 ≤ p.depth := by
    induction h with
    | new w => simp [ClassPath.new, ClassPath.depth]
    | extend w hp ih => simp [ClassPath.extend, ClassPath.depth]
    | chain hp hq ihp ihq =>
      simp only [ClassPath.chain, ClassPath.depth, List.length_append]
      simp only [ClassPath.depth] at ihp
      omega
  refine ⟨hd, ?_⟩
  rw [ClassPath.last, List.getLast?_isSome]
  intro hnil
  rw [ClassPath.depth, hnil] at hd
  simp at hd

/-- C9 witness: a concrete two-step path built via `new` then `extend`. -/
theorem C9_classpath_hierarchy_nonempty_witness :
    1 ≤ ((ClassPath.new ⟨"div", []⟩).extend ⟨"button", []⟩).depth ∧
      ((ClassPath.new ⟨"div", []⟩).extend ⟨"button", []⟩).last.isSome :=
  C9_classpath_hierarchy_nonempty _
    (ClassPath.Built.extend _ (ClassPath.Built.new _))

/-- C8 counterexample: the four tables share one incrementor, so interning a
name as one kind does change the numeric id it later receives as another
kind: on a fresh allocator `"x"` interned directly as a property gets id 1,
but gets id 2 when `"x"` was first interned as a widget. -/
theorem C8_shared_incrementor_counterexample :
    (NekoContextAllocator.new.get_or_create_property "x").1 = 1 ∧
    (((NekoContextAllocator.new.get_or_create_widget "x").2).get_or_create_property "x").1 = 2 ∧
    (1 : Nat) ≠ 2 := by
  refine ⟨rfl, rfl, by decide⟩


/-- C8 amended: same-kind idempotence and freshness hold, and the four kinds
are independent name-to-id tables in the sense that interning a name as one
kind leaves every other kind's table unchanged; but because all four kinds
share one incrementor, the numeric id a name receives as one kind can shift
when another kind allocates in between (see the counterexample). -/
theorem C8_interning_amended :
    (∀ (a : NekoContextAllocator) (n : String),
      ((a.get_or_create_widget n).2.get_or_create_widget n).1 = (a.get_or_create_widget n).1 ∧
      ((a.get_or_create_property n).2.get_or_create_property n).1 = (a.get_or_create_property n).1 ∧
      ((a.get_or_create_class n).2.get_or_create_class n).1 = (a.get_or_create_class n).1 ∧
      ((a.get_or_create_variable n).2.get_or_create_variable n).1 = (a.get_or_create_variable n).1) ∧
    (∀ (a : NekoContextAllocator) (n₁ n₂ : String), n₁ ≠ n₂ →
      (listGet a.widgets n₁ = none → listGet a.widgets n₂ = none →
        ((a.get_or_create_widget n₁).2.get_or_create_widget n₂).1 ≠ (a.get_or_create_widget n₁).1) ∧
      (listGet a.properties n₁ = none → listGet a.properties n₂ = none →
        ((a.get_or_create_property n₁).2.get_or_create_property n₂).1 ≠ (a.get_or_create_property n₁).1) ∧
      (listGet a.classes n₁ = none → listGet a.classes n₂ = none →
        ((a.get_or_create_class n₁).2.get_or_create_class n₂).1 ≠ (a.get_or_create_class n₁).1) ∧
      (listGet a.vars n₁ = none → listGet a.vars n₂ = none →
        ((a.get_or_create_variable n₁).2.get_or_create_variable n₂).1 ≠ (a.get_or_create_variable n₁).1)) ∧
    (∀ (a : NekoContextAllocator) (n : String),
      ((a.get_or_create_widget n).2.properties = a.properties ∧
        (a.get_or_create_widget n).2.classes = a.classes ∧
        (a.get_or_create_widget n).2.vars = a.vars) ∧
      ((a.get_or_create_property n).2.widgets = a.widgets ∧
        (a.get_or_create_property n).2.classes = a.classes ∧
        (a.get_or_create_property n).2.vars = a.vars) ∧
      ((a.get_or_create_class n).2.widgets = a.widgets ∧
        (a.get_or_create_class n).2.properties = a.properties ∧
        (a.get_or_create_class n).2.vars = a.vars) ∧
      ((a.get_or_create_variable n).2.widgets = a.widgets ∧
        (a.get_or_create_variable n).2.properties = a.properties ∧
        (a.get_or_create_variable n).2.classes = a.classes)) := by
  refine ⟨fun a n => ?_, fun a n₁ n₂ hne => ?_, fun a n => ?_⟩
  · refine ⟨?_, ?_, ?_, ?_⟩
    · rcases h : listGet a.widgets n with _ | w
      · simp [NekoContextAllocator.get_or_create_widget, h, listGet_listInsert_self]
      · simp [NekoContextAllocator.get_or_create_widget, h]
    · rcases h : listGet a.properties n with _ | w
      · simp [NekoContextAllocator.get_or_create_property, h, listGet_listInsert_self]
      · simp [NekoContextAllocator.get_or_create_property, h]
    · rcases h : listGet a.classes n with _ | w
      · simp [NekoContextAllocator.get_or_create_class, h, listGet_listInsert_self]
      · simp [NekoContextAllocator.get_or_create_class, h]
    · rcases h : listGet a.vars n with _ | w
      · simp [NekoContextAllocator.get_or_create_variable, h, listGet_listInsert_self]
      · simp [NekoContextAllocator.get_or_create_variable, h]
  · refine ⟨?_, ?_, ?_, ?_⟩
    · intro h1 h2
      have hbe : (n₁ == n₂) = false := beq_eq_false_iff_ne.mpr hne
      simp [NekoContextAllocator.get_or_create_widget, h1, h2, listGet_listInsert_ne _ _ _ _ hbe]
    · intro h1 h2
      have hbe : (n₁ == n₂) = false := beq_eq_false_iff_ne.mpr hne
      simp [NekoContextAllocator.get_or_create_property, h1, h2, listGet_listInsert_ne _ _ _ _ hbe]
    · intro h1 h2
      have hbe : (n₁ == n₂) = false := beq_eq_false_iff_ne.mpr hne
      simp [NekoContextAllocator.get_or_create_class, h1, h2, listGet_listInsert_ne _ _ _ _ hbe]
    · intro h1 h2
      have hbe : (n₁ == n₂) = false := beq_eq_false_iff_ne.mpr hne
      simp [NekoContextAllocator.get_or_create_variable, h1, h2, listGet_listInsert_ne _ _ _ _ hbe]
  · refine ⟨?_, ?_, ?_, ?_⟩
    · rcases h : listGet a.widgets n with _ | w
      · simp [NekoContextAllocator.get_or_create_widget, h]
      · simp [NekoContextAllocator.get_or_create_widget, h]
    · rcases h : listGet a.properties n with _ | w
      · simp [NekoContextAllocator.get_or_create_property, h]
      · simp [NekoContextAllocator.get_or_create_property, h]
    · rcases h : listGet a.classes n with _ | w
      · simp [NekoContextAllocator.get_or_create_class, h]
      · simp [NekoContextAllocator.get_or_create_class, h]
    · rcases h : listGet a.vars n with _ | w
      · simp [NekoContextAllocator.get_or_create_variable, h]
      · simp [NekoContextAllocator.get_or_create_variable, h]

/-- C8 witness: idempotence and same-kind freshness applied on the fresh
allocator with the never-seen names `"a"` and `"b"`. -/
theorem C8_interning_amended_witness :
    ((NekoContextAllocator.new.get_or_create_widget "a").2.get_or_create_widget "a").1 =
      (NekoContextAllocator.new.get_or_create_widget "a").1 ∧
    ((NekoContextAllocator.new.get_or_create_widget "a").2.get_or_create_widget "b").1 ≠
      (NekoContextAllocator.new.get_or_create_widget "a").1 :=
  ⟨(C8_interning_amended.1 NekoContextAllocator.new "a").1,
    (C8_interning_amended.2.1 NekoContextAllocator.new "a" "b" (by decide)).1 rfl rfl⟩

/-- C6: the classpath `[div(+outer-menu), button()]` partially matches the
hierarchy `[div, button+hover]` while exact matching fails (the button lacks
the hover class); in general `matches` requires, for each selector of the
same-length suffix, widget equality plus every with-class present and every
without-class absent, and both matching modes return false whenever the
classpath is shorter than the selector hierarchy. -/
theorem C6_partial_vs_exact_matching :
    (fx_classpath.partial_matches fx_hierarchy = true ∧
      fx_classpath.matches fx_hierarchy = false) ∧
    (∀ (cp : ClassPath) (sh : SelectorHierarchy), cp.depth < sh.depth →
      cp.matches sh = false ∧ cp.partial_matches sh = false) ∧
    (∀ (cp : ClassPath) (sh : SelectorHierarchy),
      cp.matches sh = true ↔
        (sh.depth ≤ cp.depth ∧ ∀ i, i < sh.depth →
          (cp.get_classes (i + (cp.depth - sh.depth))).matches
            (sh.get_selector i) = true)) ∧
    (∀ (wc : WidgetClasses) (sel : Selector),
      wc.matches sel = true ↔
        (wc.widget = sel.widget ∧ (∀ c ∈ sel.with_classes, c ∈ wc.classes) ∧
          (∀ c ∈ sel.without_classes, c ∉ wc.classes))) := by
  refine ⟨by decide, fun cp sh h => ?_, fun cp sh => ?_, fun wc sel => ?_⟩
  · constructor
    · simp [ClassPath.matches, h]
    · simp [ClassPath.partial_matches, h]
  · by_cases h : cp.depth < sh.depth
    · simp only [ClassPath.matches, if_pos h, Bool.false_eq_true, false_iff]
      intro hc
      omega
    · have hle : sh.depth ≤ cp.depth := Nat.le_of_not_lt h
      simp [ClassPath.matches, h, hle, List.all_eq_true, List.mem_range]
  · by_cases hw : wc.widget = sel.widget
    · simp [WidgetClasses.matches, hw, List.all_eq_true]
    · simp [WidgetClasses.matches, Ne.symm hw, hw, bne_iff_ne]

/-- C6 witness: the shorter-classpath branch applied at a depth-1 path
against the depth-2 fixture hierarchy. -/
theorem C6_partial_vs_exact_matching_witness :
    (ClassPath.new ⟨"button", []⟩).matches fx_hierarchy = false ∧
      (ClassPath.new ⟨"button", []⟩).partial_matches fx_hierarchy = false :=
  C6_partial_vs_exact_matching.2.1 (ClassPath.new ⟨"button", []⟩) fx_hierarchy
    (by decide)


/-- A key absent from the key column is not found. -/
theorem listGet_eq_none_of_not_mem {α β : Type} [BEq α] [LawfulBEq α]
    (m : List (α × β)) (key : α) (h : key ∉ m.map Prod.fst) :
    listGet m key = none := by
  induction m with
  | nil => rfl
  | cons p rest ih =>
    obtain ⟨k, v⟩ := p
    simp only [List.map_cons, List.mem_cons] at h
    push_neg at h
    simp only [listGet]
    rw [if_neg (by simpa using fun hkv => h.1 hkv.symm), ih h.2]

/-- Lookup through the property-overwriting fold of `add_style`'s merge: the
incoming binding wins, the existing one is the fallback (for duplicate-free
incoming keys, which every engine-built style has). -/
theorem merge_fold_get {props : List (NekoProperty × PropertyValue)}
    (existing : NekoStyle) (p : NekoProperty)
    (h : (props.map Prod.fst).Nodup) :
    listGet (props.foldl (fun s q => s.set_property q.1 q.2) existing).properties p =
      (listGet props p).or (listGet existing.properties p) := by
  induction props generalizing existing with
  | nil => simp [listGet]
  | cons q rest ih =>
    obtain ⟨k, v⟩ := q
    simp only [List.map_cons, List.nodup_cons] at h
    simp only [List.foldl_cons]
    rw [ih (existing.set_property k v) h.2]
    by_cases hk : (k == p)
    · have hkp : k = p := by simpa using hk
      subst hkp
      rw [listGet_eq_none_of_not_mem rest k h.1]
      simp [listGet, NekoStyle.set_property, listGet_listInsert_self]
    · have hbe : (k == p) = false := by simpa using hk
      simp only [NekoStyle.set_property]
      rw [listGet_listInsert_ne _ _ _ _ hbe]
      simp [listGet, hbe]

/-- C3: `add_style` merges or appends: when some existing entry's selector
hierarchy is structurally equal to the incoming one, the first such entry is
overwritten in place (same position, same list length), the incoming
properties winning on conflicting names; otherwise the style is appended.
Consequently a module importing `V=red` and style `S`, then re-declaring
`V=white`, ends with the new `V` and `S` unchanged — unless it declares a
style with the identical selector, in which case the two merge with the
importer winning on conflicts. -/
theorem C3_add_style_merge_or_append :
    (∀ (ctx : NekoContext) (style : NekoStyle) (pre post : List NekoStyle)
        (s : NekoStyle),
      ctx.styles = pre ++ s :: post →
      (∀ t ∈ pre, SelectorHierarchy.eqv t.selector style.selector = false) →
      SelectorHierarchy.eqv s.selector style.selector = true →
        (ctx.add_style style).styles = pre ++ NekoStyle.merge_into s style :: post ∧
        (ctx.add_style style).styles.length = ctx.styles.length) ∧
    (∀ (ctx : NekoContext) (style : NekoStyle),
      (∀ t ∈ ctx.styles, SelectorHierarchy.eqv t.selector style.selector = false) →
        (ctx.add_style style).styles = ctx.styles ++ [style]) ∧
    (∀ (existing incoming : NekoStyle) (p : NekoProperty),
      (incoming.properties.map Prod.fst).Nodup →
        (NekoStyle.merge_into existing incoming).get_property p =
          ((incoming.get_property p).or (existing.get_property p))) ∧
    listGet (fx_vm_a.resolve_module "B" fx_module_imp_b).1.contexts "B" =
      some ⟨[("V", fx_white)], [⟨⟨[⟨"button", [], []⟩]⟩, [("width", .Pixels 5)]⟩]⟩ ∧
    listGet (fx_vm_a.resolve_module "B2" fx_module_imp_b2).1.contexts "B2" =
      some ⟨[("V", fx_white)],
        [⟨⟨[⟨"button", [], []⟩]⟩, [("width", .Pixels 9), ("height", .Pixels 7)]⟩]⟩ := by
  have hmerge : ∀ (pre : List NekoStyle) (style s : NekoStyle) (post : List NekoStyle),
      (∀ t ∈ pre, SelectorHierarchy.eqv t.selector style.selector = false) →
      SelectorHierarchy.eqv s.selector style.selector = true →
        add_style_list (pre ++ s :: post) style =
          pre ++ NekoStyle.merge_into s style :: post := by
    intro pre style s post hpre hs
    induction pre with
    | nil => simp [add_style_list, hs]
    | cons t rest ih =>
      have ht := hpre t (by simp)
      simp only [List.cons_append, add_style_list, ht, Bool.false_eq_true, if_false,
        List.append_eq]
      rw [ih (fun u hu => hpre u (by simp [hu]))]
  have happend : ∀ (styles : List NekoStyle) (style : NekoStyle),
      (∀ t ∈ styles, SelectorHierarchy.eqv t.selector style.selector = false) →
        add_style_list styles style = styles ++ [style] := by
    intro styles style hall
    induction styles with
    | nil => rfl
    | cons t rest ih =>
      have ht := hall t (by simp)
      simp only [add_style_list, ht, Bool.false_eq_true, if_false, List.cons_append,
        List.append_eq]
      rw [ih (fun u hu => hall u (by simp [hu]))]
  refine ⟨fun ctx style pre post s hctx hpre hs => ?_, fun ctx style hall => ?_,
    fun existing incoming p h => ?_, rfl, rfl⟩
  · have := hmerge pre style s post hpre hs
    constructor
    · simp [NekoContext.add_style, hctx, this]
    · simp [NekoContext.add_style, hctx, this]
  · simp [NekoContext.add_style, happend ctx.styles style hall]
  · exact merge_fold_get existing p h

/-- C3 witness: the append branch on an empty context, and the merge-lookup
characterization on the fixture inline style. -/
theorem C3_add_style_merge_or_append_witness :
    (NekoContext.empty.add_style fx_pressed_style).styles =
      NekoContext.empty.styles ++ [fx_pressed_style] ∧
    (NekoStyle.merge_into fx_button_style fx_inline_style).get_property "width" =
      ((fx_inline_style.get_property "width").or (fx_button_style.get_property "width")) :=
  ⟨C3_add_style_merge_or_append.2.1 NekoContext.empty fx_pressed_style
      (by intro t ht; simp [NekoContext.empty] at ht),
    C3_add_style_merge_or_append.2.2.1 fx_button_style fx_inline_style "width"
      (by decide)⟩


/-- One step of the shared property-resolution loop. -/
theorem resolve_style_properties_cons (w : String) (wd : WidgetDefinition)
    (ctx : NekoContext) (p : PropertyNode) (rest : List PropertyNode)
    (style : NekoStyle) (errors : List NekoMaidVMError) :
    resolve_style_properties w wd ctx (p :: rest) style errors =
      (if (wd.get_property p.name).isNone then
        resolve_style_properties w wd ctx rest style
          (errors ++ [.InvalidProperty p.name w p.position])
      else
        match PropertyValue.from_property_node_value p.value ctx with
        | .ok v => resolve_style_properties w wd ctx rest (style.set_property p.name v) errors
        | .error e => resolve_style_properties w wd ctx rest style (errors ++ [e])) := by
  simp only [resolve_style_properties, List.foldl_cons]
  by_cases h1 : (wd.get_property p.name).isNone
  · simp [h1]
  · simp only [h1, Bool.false_eq_true, if_false]
    rcases h2 : PropertyValue.from_property_node_value p.value ctx with e | v <;> simp [h2]

/-- The property-resolution loop never changes the style's selector. -/
theorem resolve_style_properties_selector (w : String) (wd : WidgetDefinition)
    (ctx : NekoContext) (props : List PropertyNode) (style : NekoStyle)
    (errors : List NekoMaidVMError) :
    (resolve_style_properties w wd ctx props style errors).1.selector = style.selector := by
  induction props generalizing style errors with
  | nil => rfl
  | cons p rest ih =>
    rw [resolve_style_properties_cons]
    by_cases h1 : (wd.get_property p.name).isNone
    · simp only [h1, if_true]
      exact ih _ _
    · simp only [h1, Bool.false_eq_true, if_false]
      rcases h2 : PropertyValue.from_property_node_value p.value ctx with e | v
      · exact ih _ _
      · exact ih _ _

mutual

/-- Selector hierarchies of the styles emitted by `build_styles_recursive`
when every widget in the subtree is known: the incoming accumulator's
hierarchies followed by the post-order specification. -/
theorem build_styles_selectors_spec (node : StyleNode) (sh : SelectorHierarchy)
    (styles : List NekoStyle) (ctx : NekoContext) (vm : NekoMaidVM)
    (errors : List NekoMaidVMError) (h : style_widgets_known vm node = true) :
    (build_styles_recursive node sh styles ctx vm errors).1.map NekoStyle.selector =
      styles.map NekoStyle.selector ++ spec_style_selectors node sh := by
  cases node with
  | mk selNode properties children =>
    simp only [style_widgets_known, Bool.and_eq_true] at h
    obtain ⟨wd, hwd⟩ := Option.isSome_iff_exists.mp h.1
    rcases hpair : build_styles_children children (sh.extend selNode.to_selector) styles
        ctx vm errors with ⟨styles1, errors1⟩
    have hch := build_styles_children_selectors_spec children (sh.extend selNode.to_selector)
      styles ctx vm errors h.2
    rw [hpair] at hch
    by_cases hprop : properties.isEmpty
    · simp [build_styles_recursive, hwd, hpair, hprop, spec_style_selectors, hch]
    · rcases hst : resolve_style_properties selNode.widget wd ctx properties
          (NekoStyle.new (sh.extend selNode.to_selector)) errors1 with ⟨style1, errors2⟩
      have hsel : style1.selector = sh.extend selNode.to_selector := by
        have := resolve_style_properties_selector selNode.widget wd ctx properties
          (NekoStyle.new (sh.extend selNode.to_selector)) errors1
        rw [hst] at this
        exact this
      simp [build_styles_recursive, hwd, hpair, hprop, hst, spec_style_selectors, hch, hsel]

/-- List version of `build_styles_selectors_spec`. -/
theorem build_styles_children_selectors_spec (children : List StyleNode)
    (sh : SelectorHierarchy) (styles : List NekoStyle) (ctx : NekoContext)
    (vm : NekoMaidVM) (errors : List NekoMaidVMError)
    (h : style_list_widgets_known vm children = true) :
    (build_styles_children children sh styles ctx vm errors).1.map NekoStyle.selector =
      styles.map NekoStyle.selector ++ spec_style_selectors_list children sh := by
  cases children with
  | nil => simp [build_styles_children, spec_style_selectors_list]
  | cons c rest =>
    simp only [style_list_widgets_known, Bool.and_eq_true] at h
    rcases hpair : build_styles_recursive c sh styles ctx vm errors with ⟨styles1, errors1⟩
    have hc := build_styles_selectors_spec c sh styles ctx vm errors h.1
    rw [hpair] at hc
    have hrest := build_styles_children_selectors_spec rest sh styles1 ctx vm errors1 h.2
    simp only [build_styles_children, hpair]
    rw [hrest, hc, spec_style_selectors_list, List.append_assoc]

end

/-- C4 counterexample: on the two-level test style node (both levels declare
properties, both widgets registered) the expansion emits the child's entry
before the parent's — not the parent's first, as the claim states. -/
theorem C4_parent_first_counterexample :
    ((NekoStyle.from_style_node fx_style_node NekoContext.empty fx_vm []).1.map
        NekoStyle.selector =
      [⟨[⟨"div", ["container"], []⟩, ⟨"button", ["hover"], ["pressed"]⟩]⟩,
       ⟨[⟨"div", ["container"], []⟩]⟩]) ∧
    ((NekoStyle.from_style_node fx_style_node NekoContext.empty fx_vm []).1.map
        NekoStyle.selector ≠
      [⟨[⟨"div", ["container"], []⟩]⟩,
       ⟨[⟨"div", ["container"], []⟩, ⟨"button", ["hover"], ["pressed"]⟩]⟩]) :=
  ⟨rfl, by decide⟩

/-- C4 amended: expansion emits exactly one `ResolvedStyle` per nesting level
whose node declares at least one property (a level with only nested blocks
contributes nothing), in depth-first order with each node's children's
entries emitted before the node's own entry (post-order), whenever every
widget in the subtree is registered. -/
theorem C4_style_expansion_postorder (node : StyleNode) (ctx : NekoContext)
    (vm : NekoMaidVM) (errors : List NekoMaidVMError)
    (h : style_widgets_known vm node = true) :
    (NekoStyle.from_style_node node ctx vm errors).1.map NekoStyle.selector =
      spec_style_selectors node SelectorHierarchy.empty := by
  have := build_styles_selectors_spec node SelectorHierarchy.empty [] ctx vm errors h
  simpa [NekoStyle.from_style_node] using this

/-- C4 witness: the amended theorem applied to the two-level test node. -/
theorem C4_style_expansion_postorder_witness :
    (NekoStyle.from_style_node fx_style_node NekoContext.empty fx_vm []).1.map
        NekoStyle.selector =
      spec_style_selectors fx_style_node SelectorHierarchy.empty :=
  C4_style_expansion_postorder fx_style_node NekoContext.empty fx_vm [] rfl


/-- Adding a style does not change an element's class path. -/
theorem add_style_classpath (e : NekoElement) (st : NekoStyle) :
    (e.add_style st).classpath = e.classpath := by
  cases e
  rfl

/-- Adding children does not change an element's style list. -/
theorem foldl_add_child_styles (els : List NekoElement) (e : NekoElement) :
    (els.foldl NekoElement.add_child e).styles = e.styles := by
  induction els generalizing e with
  | nil => rfl
  | cons x rest ih =>
    rw [List.foldl_cons, ih]
    cases e
    rfl

/-- Adding children does not change an element's class path. -/
theorem foldl_add_child_classpath (els : List NekoElement) (e : NekoElement) :
    (els.foldl NekoElement.add_child e).classpath = e.classpath := by
  induction els generalizing e with
  | nil => rfl
  | cons x rest ih =>
    rw [List.foldl_cons, ih]
    cases e
    rfl

/-- The candidate-gathering fold over context styles does not change the
element's class path. -/
theorem foldl_gather_classpath (ss : List NekoStyle) (e : NekoElement) :
    (ss.foldl
      (fun e style =>
        if e.classpath.partial_matches style.selector then e.add_style style else e)
      e).classpath = e.classpath := by
  induction ss generalizing e with
  | nil => rfl
  | cons st rest ih =>
    rw [List.foldl_cons, ih]
    by_cases h : e.classpath.partial_matches st.selector
    · rw [if_pos h, add_style_classpath]
    · rw [if_neg h]

/-- The widget-only selector fold lists one `Selector::new` per class-path
entry. -/
theorem foldl_extend_selectors (l : List WidgetClasses) (sh : SelectorHierarchy) :
    (l.foldl (fun sh wc => sh.extend (Selector.new wc.widget)) sh).selectors =
      sh.selectors ++ l.map (fun wc => Selector.new wc.widget) := by
  induction l generalizing sh with
  | nil => simp
  | cons wc rest ih =>
    rw [List.foldl_cons, ih]
    simp [SelectorHierarchy.extend]

/-- Adding a style pushes it at the front of the style list. -/
theorem add_style_styles (e : NekoElement) (st : NekoStyle) :
    (e.add_style st).styles = st :: e.styles := by
  cases e
  rfl

/-- Gathering candidate styles does not change the element's class path. -/
theorem gather_partial_matches_classpath (ctx : NekoContext) (e : NekoElement) :
    (gather_partial_matches ctx e).classpath = e.classpath := by
  rw [gather_partial_matches]
  exact foldl_gather_classpath ctx.styles e

/-- The inline selector hierarchy is the widget-only image of the class
path. -/
theorem inline_selector_hierarchy_selectors (cpath : ClassPath) :
    (inline_selector_hierarchy cpath).selectors =
      cpath.hierarchy.map fun wc => Selector.new wc.widget := by
  rw [inline_selector_hierarchy, foldl_extend_selectors]
  rfl

/-- C10: a layout node with a non-empty property list, whose widget is
registered, always resolves to an element whose frontmost style is the
synthesized inline style, with the widget-only version of the element's full
class path as its selector — even when every property fails to resolve, in
which case (fixture conjuncts) the inline entry still appears with an empty
property map alongside the two collected errors. -/
theorem C10_inline_style_always_synthesized :
    (∀ (node : LayoutNode) (cp : Option ClassPath) (ctx : NekoContext)
        (vm : NekoMaidVM) (errors : List NekoMaidVMError) (wd : WidgetDefinition),
      vm.get_widget_definition node.widget = some wd →
      node.properties ≠ [] →
        ((resolve_layout_node_recursive node cp ctx vm errors).1.isSome = true ∧
         ∀ el, (resolve_layout_node_recursive node cp ctx vm errors).1 = some el →
           el.styles.head?.map (fun s => s.selector.selectors) =
             some (el.classpath.hierarchy.map fun wc => Selector.new wc.widget))) ∧
    (resolve_layout_node_recursive fx_bad_layout none NekoContext.empty fx_vm []).2 =
      [.InvalidProperty "bogus-prop" "div" pos0, .VariableNotFound "nope" pos0] ∧
    ((resolve_layout_node_recursive fx_bad_layout none NekoContext.empty fx_vm []).1.map
        (fun el => el.styles.head?.map fun s => (s.selector, s.properties))) =
      some (some (⟨[Selector.new "div"]⟩, [])) := by
  refine ⟨fun node cp ctx vm errors wd hwd hprops => ?_, rfl, rfl⟩
  cases node with
  | mk widget classes properties children position =>
    simp only [LayoutNode.widget] at hwd
    simp only [LayoutNode.properties] at hprops
    have hne : properties.isEmpty = false := by
      cases properties
      · simp at hprops
      · rfl
    have hgc :
        (gather_partial_matches ctx
            ((NekoElement.new (layout_classpath cp widget classes)).add_style
              wd.default_style)).classpath = layout_classpath cp widget classes := by
      rw [gather_partial_matches_classpath, add_style_classpath]
      rfl
    rcases hst : resolve_style_properties widget wd ctx properties
        (NekoStyle.new (inline_selector_hierarchy (layout_classpath cp widget classes)))
        errors with ⟨style1, errors1⟩
    rcases hch : resolve_layout_children children (layout_classpath cp widget classes)
        ctx vm errors1 with ⟨ch, errs2⟩
    have hres : resolve_layout_node_recursive (.mk widget classes properties children position)
        cp ctx vm errors =
        (some (ch.foldl NekoElement.add_child
          ((gather_partial_matches ctx
            ((NekoElement.new (layout_classpath cp widget classes)).add_style
              wd.default_style)).add_style style1)), errs2) := by
      simp only [resolve_layout_node_recursive, hwd, hne, Bool.false_eq_true, if_false,
        hgc, hst, add_style_classpath, hch]
    rw [hres]
    refine ⟨rfl, fun el hel => ?_⟩
    obtain rfl : _ = el := Option.some_injective _ hel
    rw [foldl_add_child_styles, add_style_styles, foldl_add_child_classpath,
      add_style_classpath, hgc]
    have hsel : style1.selector =
        inline_selector_hierarchy (layout_classpath cp widget classes) := by
      have := resolve_style_properties_selector widget wd ctx properties
        (NekoStyle.new (inline_selector_hierarchy (layout_classpath cp widget classes)))
        errors
      rw [hst] at this
      exact this
    simp [hsel, inline_selector_hierarchy_selectors]

/-- C10 witness: the general inline-style conjunct applied to the fixture
layout node whose every property fails to resolve. -/
theorem C10_inline_style_always_synthesized_witness :
    ((resolve_layout_node_recursive fx_bad_layout none NekoContext.empty fx_vm []).1.isSome =
        true ∧
      ∀ el,
        (resolve_layout_node_recursive fx_bad_layout none NekoContext.empty fx_vm []).1 =
          some el →
        el.styles.head?.map (fun s => s.selector.selectors) =
          some (el.classpath.hierarchy.map fun wc => Selector.new wc.widget)) :=
  C10_inline_style_always_synthesized.1 fx_bad_layout none NekoContext.empty fx_vm []
    ⟨"div", fx_widget_props⟩ rfl (by decide)


/-- Sanity check of the lexer model against `test_tokenize_identifier` in
`src/parse/token.rs`: a padded identifier with its position. -/
theorem tokenize_identifier_sanity :
    tokenize "  my_identifier  " =
      .ok [⟨.Identifier, ⟨1, 3, 13⟩, .String "my_identifier"⟩] := rfl

/-- Sanity check of the lexer model against `test_tokenize_number_literal` in
`src/parse/token.rs`: a padded integer literal with its position. -/
theorem tokenize_number_sanity :
    tokenize "\n  42 \t " = .ok [⟨.NumberLiteral, ⟨2, 3, 2⟩, .Number 42⟩] := rfl


end NekoMaid
